import Mathlib

/-!
Shallow embedding of the FHIR-Challenge-App normalization / retry /
error-classification core (src/js/error-handler.js, src/js/fhir-client.js,
src/js/medication-request.js).  JavaScript objects are modelled as Lean
structures whose optional fields are `Option`; JS string truthiness
(`undefined`, `null` and `""` are falsy) is modelled explicitly; thrown
values are modelled with `Except`.  Timestamps (`new Date().toISOString()`)
are environment-dependent and omitted from the records.
-/

/-- Truthiness of a JS string-or-undefined value: absent and `""` are falsy. -/
def strTruthy : Option String → Bool
  | some s => !s.isEmpty
  | none => false

/-- Embeds the JS idiom `a || d` for a string `a` and a string default `d`. -/
def jsOrD (a : Option String) (d : String) : String :=
  match a with
  | some s => if s.isEmpty then d else s
  | none => d

/-- Embeds the JS idiom `a || b` for two string-or-undefined values. -/
def jsOr (a b : Option String) : Option String :=
  if strTruthy a then a else b

/-- Truthiness of a JS number-or-undefined value: absent and `0` are falsy. -/
def intTruthy : Option Int → Bool
  | some v => v != 0
  | none => false

/-- Rendering of a number under JS template interpolation with `|| ''`:
`0` and absence render as the empty string. -/
def intDisp : Option Int → String
  | some v => if v == 0 then "" else toString v
  | none => ""

/-- Rendering of a possibly-undefined string under JS template interpolation
(`undefined` prints as the literal text `undefined`). -/
def showOpt : Option String → String
  | some s => s
  | none => "undefined"

/-- Embeds JS `String.prototype.includes` (for a non-empty needle). -/
def strIncludes (s sub : String) : Bool :=
  (s.splitOn sub).length != 1

/-- Embeds JS `String.prototype.toLowerCase` as a per-character map (the
library `String.toLower` is definitionally opaque to the kernel). -/
def jsToLower (s : String) : String :=
  ⟨s.data.map Char.toLower⟩

/-- FHIR `Coding` element as read by the normalizers. -/
structure Coding where
  system : Option String := none
  code : Option String := none
  display : Option String := none
deriving DecidableEq, Repr

/-- FHIR `CodeableConcept` as read by the normalizers.  `coding` is `none`
when the field is absent (or not an array). -/
structure CodeableConcept where
  text : Option String := none
  coding : Option (List Coding) := none
deriving DecidableEq, Repr

/-- First element of a CodeableConcept's coding array (`coding?.[0]`). -/
def coding0 (cc : CodeableConcept) : Option Coding :=
  match cc.coding with
  | some xs => xs.head?
  | none => none

/-- Object form of a FHIR reference. -/
structure RefObj where
  reference : Option String := none
  display : Option String := none
  type : Option String := none
  id : Option String := none
deriving DecidableEq, Repr

/-- A reference field may hold either a bare string or a reference object. -/
inductive RefVal where
  | rstr (s : String)
  | robj (o : RefObj)
deriving DecidableEq, Repr

/-- JS property lookup `.reference` on a reference value (undefined on strings). -/
def RefVal.referenceField : RefVal → Option String
  | .rstr _ => none
  | .robj o => o.reference

/-- JS property lookup `.display` on a reference value (undefined on strings). -/
def RefVal.displayField : RefVal → Option String
  | .rstr _ => none
  | .robj o => o.display

/-- JS property lookup `.type` on a reference value (undefined on strings). -/
def RefVal.typeField : RefVal → Option String
  | .rstr _ => none
  | .robj o => o.type

/-- JS property lookup `.id` on a reference value (undefined on strings). -/
def RefVal.idField : RefVal → Option String
  | .rstr _ => none
  | .robj o => o.id

/-- The `category` field of an AllergyIntolerance: a string or an array. -/
inductive CategoryVal where
  | cstr (s : String)
  | carr (xs : List String)
deriving DecidableEq, Repr

/-- An annotation object of a `note` array. -/
structure NoteObj where
  text : Option String := none
  author : Option RefVal := none
  time : Option String := none
deriving DecidableEq, Repr

/-- A `note` field: a bare string or an array of annotation objects. -/
inductive NoteVal where
  | nstr (s : String)
  | narr (xs : List NoteObj)
deriving DecidableEq, Repr

/-- One element of an AllergyIntolerance `reaction` array.  Its `substance`
is a CodeableConcept; note that such an object carries no `code` member. -/
structure Reaction where
  id : Option String := none
  substance : Option CodeableConcept := none
  manifestation : Option (List CodeableConcept) := none
  severity : Option String := none
  description : Option String := none
  onset : Option String := none
  note : Option NoteVal := none
deriving DecidableEq, Repr

/-- The `repeat` component of a dosage `timing` (renamed: `repeat` is a Lean
keyword). -/
structure RepeatObj where
  frequency : Option Int := none
  period : Option Int := none
  periodUnit : Option String := none
  when : Option (List String) := none
deriving DecidableEq, Repr

/-- A dosage `timing` object. -/
structure Timing where
  code : Option CodeableConcept := none
  repeatF : Option RepeatObj := none
deriving DecidableEq, Repr

/-- A `doseQuantity` object. -/
structure DoseQuantity where
  value : Option Int := none
  unit : Option String := none
  code : Option String := none
deriving DecidableEq, Repr

/-- One element of a `doseAndRate` array. -/
structure DoseAndRate where
  doseQuantity : Option DoseQuantity := none
deriving DecidableEq, Repr

/-- One element of a `dosageInstruction` array. -/
structure Dosage where
  text : Option String := none
  timing : Option Timing := none
  doseAndRate : Option (List DoseAndRate) := none
  route : Option CodeableConcept := none
  doseQuantity : Option DoseQuantity := none
  asNeeded : Option Bool := none
  asNeededCodeableConcept : Option CodeableConcept := none
  patientInstruction : Option String := none
deriving DecidableEq, Repr

/-- One element of an Immunization `performer` array. -/
structure Perf where
  actor : Option RefVal := none
deriving DecidableEq, Repr

/-- A raw FHIR resource as read by the four normalizers.  JS resources are
duck-typed objects, so one record carries the union of the fields the
allergy, medication, medication-request and immunization code paths read. -/
structure Res where
  id : Option String := none
  resourceType : Option String := none
  patient : Option RefVal := none
  clinicalStatus : Option CodeableConcept := none
  verificationStatus : Option CodeableConcept := none
  criticality : Option String := none
  category : Option CategoryVal := none
  type : Option String := none
  code : Option CodeableConcept := none
  reaction : Option (List Reaction) := none
  recordedDate : Option String := none
  recorder : Option RefVal := none
  asserter : Option RefVal := none
  note : Option NoteVal := none
  status : Option String := none
  intent : Option String := none
  priority : Option String := none
  medicationCodeableConcept : Option CodeableConcept := none
  medicationReference : Option RefVal := none
  dosageInstruction : Option (List Dosage) := none
  authoredOn : Option String := none
  requester : Option RefVal := none
  vaccineCode : Option CodeableConcept := none
  occurrenceDateTime : Option String := none
  occurrenceString : Option String := none
  performer : Option (List Perf) := none
  lotNumber : Option String := none
  site : Option CodeableConcept := none
  route : Option CodeableConcept := none
deriving DecidableEq, Repr

/-- One element of a bundle `entry` array. -/
structure BEntry where
  resource : Option Res := none
deriving DecidableEq, Repr

/-- One element of a bundle `link` array. -/
structure Link where
  relation : Option String := none
  url : Option String := none
deriving DecidableEq, Repr

/-- Shapes a raw server response can take, as discriminated by the response
processors: `null`/`undefined`, a bare array of resources, or an object
carrying resource fields plus an optional `entry` array and `link` array
(`entry` is modelled as absent-or-array). -/
inductive Response where
  | rnull
  | rarr (xs : List (Option Res))
  | robj (r : Res) (entry : Option (List BEntry)) (link : Option (List Link))
deriving DecidableEq, Repr

/-- An error value: either a raw thrown object (top-level `status`, no
`type`) or a structured record built by `createError` (`type`, `message`,
`details`).  The `details` sub-object is flattened into the
`details*` fields. -/
structure EVal where
  type : Option String := none
  message : Option String := none
  status : Option Int := none
  detailsStatus : Option Int := none
  detailsRetriesAttempted : Option Nat := none
  detailsHelp : Option String := none
deriving DecidableEq, Repr

/-- Constructor corresponding to `createError(type, message, details)` in
error-handler.js; detail fields are supplied by record update. -/
def createError (t : Option String) (msg : String) : EVal :=
  { type := t, message := some msg }

/-- Constants of the `FhirServerError` enumeration (fhir-client.js). -/
def FhirServerError.INVALID_CLIENT : String := "INVALID_FHIR_CLIENT"

def FhirServerError.MISSING_PARAMETER : String := "MISSING_PARAMETER"

def FhirServerError.UNAUTHORIZED : String := "UNAUTHORIZED"

def FhirServerError.RESOURCE_NOT_FOUND : String := "RESOURCE_NOT_FOUND"

def FhirServerError.SERVER_ERROR : String := "SERVER_ERROR"

def FhirServerError.DATA_RETRIEVAL_FAILED : String := "DATA_RETRIEVAL_FAILED"

def FhirServerError.UNKNOWN : String := "UNKNOWN_ERROR"

/-- Constants of the `NetworkError` enumeration (fhir-client.js). -/
def NetworkError.CONNECTION_FAILED : String := "CONNECTION_FAILED"

def NetworkError.MAX_RETRIES_EXCEEDED : String := "MAX_RETRIES_EXCEEDED"

/-- Options read by `retryOperation` (error-handler.js lines 365-374).  The
keys it destructures are exactly these; `onRetry` only logs and is recorded
in the trace, `onFinalFailure` is modelled by the wrapped error it would
compute. -/
structure RetryOpts where
  maxRetries : Nat := 3
  delay : Nat := 1000
  backoff : Nat := 2
  shouldRetry : Option (EVal → Bool) := none
  retryStatusCodes : List Int := [408, 429, 500, 502, 503, 504]
  onFinalFailure : Option (EVal → Nat → EVal) := none

/-- Observable trace of one `retryOperation` run: its settled value (a
rejection carries `none` when JS would throw `undefined`), how many times
the operation was invoked, the summed backoff wait, the attempts at which
`onRetry` fired, and the value `onFinalFailure` computed when it was
invoked (the source discards that value). -/
structure RetryTrace (α : Type) where
  result : Except (Option EVal) α
  invocations : Nat
  totalDelay : Nat
  onRetryCalls : List Nat
  finalFailureResult : Option EVal
deriving Repr

/-- Default retry predicate of `retryOperation` (line 388):
`error.status && retryStatusCodes.includes(error.status)`; a missing or
zero status is falsy. -/
def shouldRetryDefault (codes : List Int) (e : EVal) : Bool :=
  match e.status with
  | some s => s != 0 && codes.contains s
  | none => false

/-- Loop body of `retryOperation` (lines 378-405): `attempt` runs from 1
while fuel (the remaining loop iterations, initially `maxRetries`) lasts;
on failure the raw error is rethrown when `attempt === maxRetries` or the
error is not retryable, otherwise the backoff wait
`delay * backoff ^ (attempt - 1)` is accumulated and the loop continues.
When the loop falls through, `lastError` is thrown (it is `undefined` when
no iteration ran). -/
def retryGo {α : Type} (op : Nat → Except EVal α) (sr : EVal → Bool)
    (hook : Option (EVal → Nat → EVal)) (maxRetries delay backoff : Nat) :
    Nat → Nat → Option EVal → Nat → Nat → List Nat → RetryTrace α
  | 0, _, lastError, inv, tdel, orc =>
    ⟨.error lastError, inv, tdel, orc, none⟩
  | fuel + 1, attempt, _, inv, tdel, orc =>
    match op attempt with
    | .ok a => ⟨.ok a, inv + 1, tdel, orc, none⟩
    | .error e =>
      if attempt == maxRetries || !(sr e) then
        ⟨.error (some e), inv + 1, tdel, orc, hook.map (fun f => f e attempt)⟩
      else
        retryGo op sr hook maxRetries delay backoff fuel (attempt + 1) (some e)
          (inv + 1) (tdel + delay * backoff ^ (attempt - 1)) (orc ++ [attempt])

/-- Embeds `retryOperation(operation, options)` (error-handler.js lines
365-408).  `op n` is the outcome of the n-th invocation of the operation
(n starting at 1). -/
def retryOperation {α : Type} (op : Nat → Except EVal α) (o : RetryOpts) :
    RetryTrace α :=
  retryGo op (o.shouldRetry.getD (shouldRetryDefault o.retryStatusCodes))
    o.onFinalFailure o.maxRetries o.delay o.backoff o.maxRetries 1 none 0 0 []

/-- Embeds `processAllergyResponse` (fhir-client.js lines 152-190).  A
`null` response throws a structured error whose `type` is
`DataError.EMPTY_RESPONSE` — a key the `DataError` enumeration does not
define, so the thrown `type` is `undefined` (`none`).  A bare array is
returned as-is; an object with an `entry` array yields
`entry.map(e => e.resource).filter(Boolean)`; an empty or entry-less
bundle and any unrecognized object yield `[]`. -/
def processAllergyResponse : Response → Except EVal (List (Option Res))
  | .rnull =>
    .error { createError none "Empty response received from FHIR server" with
      detailsHelp := some "The FHIR server returned an empty response. This may indicate a server issue." }
  | .rarr xs => .ok xs
  | .robj r entry _ =>
    match entry with
    | some es => .ok ((es.map (fun en => en.resource)).filter (fun o => o.isSome))
    | none =>
      if r.resourceType == some "Bundle" then .ok []
      else .ok []

/-- Result of `validateAllergyResource`; the per-resource `resource`,
`fhirVersion` and `validationTimestamp` fields of the full result are
omitted (the early null-return lacks them and no caller reads them). -/
structure ValidationOut where
  valid : Bool
  errors : List String
  warnings : List String
  info : List String
deriving DecidableEq, Repr

/-- Warnings the coding-array loop of `validateAllergyResource` pushes: one
per coding entry whose `system`, `code` and `display` are all falsy. -/
def codingEntryWarnings (i : Nat) : List Coding → List String
  | [] => []
  | c :: rest =>
    (if !(strTruthy c.system) && !(strTruthy c.code) && !(strTruthy c.display) then
      ["AllergyIntolerance.code.coding[" ++ toString i ++ "] should have at least system, code, or display"]
    else []) ++ codingEntryWarnings (i + 1) rest

/-- Embeds `validateAllergyResource` (fhir-client.js lines 309-406).
Errors: null resource, wrong `resourceType`, missing `patient`.  All other
checks produce warnings.  `valid` is `errors.length === 0`. -/
def validateAllergyResource (a? : Option Res) : ValidationOut :=
  match a? with
  | none =>
    { valid := false, errors := ["Allergy resource is null or undefined"],
      warnings := [], info := [] }
  | some a =>
    let errs :=
      (if a.resourceType == some "AllergyIntolerance" then []
       else ["Invalid resource type: " ++ showOpt a.resourceType ++ ". Expected: AllergyIntolerance"]) ++
      (match a.patient with
       | none => ["AllergyIntolerance.patient is required per FHIR R4 specification"]
       | some _ => [])
    let warns :=
      (if strTruthy a.id then []
       else ["AllergyIntolerance resource missing recommended id field"]) ++
      (match a.patient with
       | none => []
       | some p =>
         if strTruthy (jsOr p.referenceField p.idField) then []
         else ["AllergyIntolerance.patient should have valid reference format"]) ++
      (match a.clinicalStatus with
       | none => []
       | some cs =>
         let status := jsOr ((coding0 cs).bind (fun c => c.code)) cs.text
         match status with
         | some s =>
           if !(["active", "inactive", "resolved"].contains (jsToLower s)) then
             if s.isEmpty then []
             else ["Invalid clinicalStatus: " ++ s ++ ". Expected values: active, inactive, resolved"]
           else []
         | none => []) ++
      (match a.verificationStatus with
       | none => []
       | some vs =>
         let status := jsOr ((coding0 vs).bind (fun c => c.code)) vs.text
         match status with
         | some s =>
           if !(["unconfirmed", "confirmed", "refuted", "entered-in-error"].contains (jsToLower s)) then
             if s.isEmpty then []
             else ["Invalid verificationStatus: " ++ s ++ ". Expected values: unconfirmed, confirmed, refuted, entered-in-error"]
           else []
         | none => []) ++
      (match a.criticality with
       | some c =>
         if c.isEmpty then []
         else if !(["low", "high", "unable-to-assess"].contains (jsToLower c)) then
           ["Invalid criticality: " ++ c ++ ". Expected values: low, high, unable-to-assess"]
         else []
       | none => []) ++
      (match a.code with
       | none => ["AllergyIntolerance.code is recommended for meaningful allergy data"]
       | some code =>
         let hasCoding := match code.coding with
           | some xs => xs.length > 0
           | none => false
         let hasText := strTruthy code.text
         (if !hasCoding && !hasText then
           ["AllergyIntolerance.code should contain either coding array or text field"]
         else []) ++
         (match code.coding with
          | some xs => if xs.length > 0 then codingEntryWarnings 0 xs else []
          | none => [])) ++
      (match a.type with
       | some t =>
         if t.isEmpty then ["AllergyIntolerance.type is recommended (allergy or intolerance)"]
         else if !(["allergy", "intolerance"].contains (jsToLower t)) then
           ["Invalid type: " ++ t ++ ". Expected values: allergy, intolerance"]
         else []
       | none => ["AllergyIntolerance.type is recommended (allergy or intolerance)"])
    { valid := errs.isEmpty, errors := errs, warnings := warns, info := [] }

/-- Embeds `validateAndNormalizeResponse` (fhir-client.js lines 257-302) on
its only input shape (its caller always passes an array, so the
non-array `INVALID_FORMAT` throw is unreachable).  The forEach loop pushes
each resource that validates onto the result and collects the rest into an
invalid list that is only logged. -/
def validateAndNormalizeResponse (allergies : List (Option Res)) : List (Option Res) :=
  if allergies.isEmpty then []
  else
    allergies.foldl
      (fun acc a => if (validateAllergyResource a).valid then acc ++ [a] else acc) []

/-- Embeds `normalizeStatus(statusObj, type)` (fhir-client.js lines
532-551): value-set check for `clinical` and `verification`, raw lowercase
passthrough otherwise. -/
def normalizeStatus (statusObj : Option CodeableConcept) (ty : String) : String :=
  match statusObj with
  | none => "unknown"
  | some so =>
    let value := jsOr ((coding0 so).bind (fun c => c.code)) so.text
    if !(strTruthy value) then "unknown"
    else
      let normalized := jsToLower (value.getD "")
      if ty == "clinical" then
        if ["active", "inactive", "resolved"].contains normalized then normalized
        else "unknown"
      else if ty == "verification" then
        if ["unconfirmed", "confirmed", "refuted", "entered-in-error"].contains normalized then normalized
        else "unknown"
      else normalized

/-- Embeds `normalizeCriticality` (lines 556-561). -/
def normalizeCriticality (c : Option String) : String :=
  if !(strTruthy c) then "unable-to-assess"
  else
    let lc := jsToLower (c.getD "")
    if ["low", "high", "unable-to-assess"].contains lc then lc
    else "unable-to-assess"

/-- Output of `normalizeCategory`: the source returns a string in the
scalar branch and a filtered array in the array branch. -/
inductive NormCategory where
  | ncstr (s : String)
  | ncarr (xs : List String)
deriving DecidableEq, Repr

/-- Embeds `normalizeCategory` (lines 566-576).  The array branch keeps
elements whose lowercase form is valid but preserves their original
casing. -/
def normalizeCategory : Option CategoryVal → NormCategory
  | none => .ncstr "unknown"
  | some (.cstr s) =>
    if s.isEmpty then .ncstr "unknown"
    else if ["food", "medication", "environment", "biologic"].contains (jsToLower s) then
      .ncstr (jsToLower s)
    else .ncstr "unknown"
  | some (.carr xs) =>
    .ncarr (xs.filter (fun c => ["food", "medication", "environment", "biologic"].contains (jsToLower c)))

/-- Embeds `normalizeSeverity` (lines 632-637): the fallback value is
`"mild"`, not `"unknown"`. -/
def normalizeSeverity (severity : Option String) : String :=
  if !(strTruthy severity) then "mild"
  else
    let ls := jsToLower (severity.getD "")
    if ["mild", "moderate", "severe"].contains ls then ls
    else "mild"

/-- Embeds `normalizeCoding` (lines 619-627). -/
def normalizeCoding : Option (List Coding) → List Coding
  | none => []
  | some xs =>
    (xs.map (fun c => ({ system := c.system, code := c.code, display := c.display } : Coding))).filter
      (fun c => strTruthy c.system || strTruthy c.code || strTruthy c.display)

/-- Object produced by `normalizeReference`. -/
structure NormRefObj where
  reference : Option String := none
  display : Option String := none
  type : Option String := none
deriving DecidableEq, Repr

/-- A normalized reference slot: `null`, a reference object, or — in the
error placeholder only — the bare string `"Unknown"`. -/
inductive NormRef where
  | nnull
  | nobj (o : NormRefObj)
  | nstr (s : String)
deriving DecidableEq, Repr

/-- Embeds `normalizeReference` (lines 642-654). -/
def normalizeReference : Option RefVal → NormRef
  | none => .nnull
  | some (.rstr s) => .nobj { reference := some s }
  | some (.robj o) => .nobj { reference := o.reference, display := o.display, type := o.type }

/-- A normalized note. -/
structure NormNote where
  text : Option String := none
  author : Option NormRef := none
  time : Option String := none
deriving DecidableEq, Repr

/-- Embeds `normalizeNotes` (lines 659-675). -/
def normalizeNotes : Option NoteVal → List NormNote
  | none => []
  | some (.narr xs) =>
    xs.map (fun n => { text := n.text, author := some (normalizeReference n.author), time := n.time })
  | some (.nstr s) => [{ text := some s }]

/-- Embeds `extractDisplayText` (lines 680-687). -/
def extractDisplayText : Option CodeableConcept → String
  | none => "Unknown"
  | some code =>
    jsOrD code.text (jsOrD ((coding0 code).bind (fun c => c.display))
      (jsOrD ((coding0 code).bind (fun c => c.code)) "Unknown"))

/-- Object produced by `extractSubstanceInfo`; its early return carries no
`coding` field (`none`) while the main branch always supplies an array. -/
structure SubstanceInfo where
  text : String
  coding : Option (List Coding) := none
deriving DecidableEq, Repr

/-- Embeds `extractSubstanceInfo(x)` (lines 510-527), where the JS argument
is any object (or `undefined`) on which `.code` is looked up.  The outer
`Option` is the argument itself: an undefined argument makes the `.code`
lookup throw a TypeError.  The inner `Option CodeableConcept` is the
argument's `code` member; at the reaction call site the argument is the
reaction's substance CodeableConcept, which has no `code` member, so the
lookup yields `none` and the substance's own content is never read. -/
def extractSubstanceInfo : Option (Option CodeableConcept) → Except String SubstanceInfo
  | none => .error "TypeError: cannot read code of undefined"
  | some none => .ok { text := "Unknown substance" }
  | some (some code) =>
    .ok { text := jsOrD code.text (jsOrD ((coding0 code).bind (fun c => c.display))
            (jsOrD ((coding0 code).bind (fun c => c.code)) "Unknown substance")),
          coding := some (match coding0 code with
            | some c => [{ system := c.system, code := c.code, display := c.display }]
            | none => []) }

/-- A normalized manifestation. -/
structure NormManifest where
  text : Option String := none
  coding : List Coding := []
  display : String := ""
deriving DecidableEq, Repr

/-- Embeds `normalizeManifestations` (lines 602-614). -/
def normalizeManifestations : Option (List CodeableConcept) → List NormManifest
  | none => []
  | some xs =>
    if xs.isEmpty then []
    else xs.map (fun m =>
      { text := m.text, coding := normalizeCoding m.coding, display := extractDisplayText (some m) })

/-- A normalized reaction. -/
structure NormReaction where
  id : String
  substance : SubstanceInfo
  manifestation : List NormManifest
  severity : String
  description : Option String := none
  onset : Option String := none
  note : List NormNote := []
deriving DecidableEq, Repr

/-- Indexed map of `normalizeReactions` (lines 586-596); raises when a
reaction lacks its `substance` (the `extractSubstanceInfo` TypeError). -/
def normalizeReactionList (i : Nat) : List Reaction → Except String (List NormReaction)
  | [] => .ok []
  | rx :: rest =>
    match extractSubstanceInfo (rx.substance.map (fun _ => none)) with
    | .error m => .error m
    | .ok sub =>
      match normalizeReactionList (i + 1) rest with
      | .error m => .error m
      | .ok tail =>
        .ok ({ id := jsOrD rx.id ("reaction-" ++ toString i),
               substance := sub,
               manifestation := normalizeManifestations rx.manifestation,
               severity := normalizeSeverity rx.severity,
               description := rx.description,
               onset := rx.onset,
               note := normalizeNotes rx.note } :: tail)

/-- Embeds `normalizeReactions` (lines 581-597). -/
def normalizeReactions : Option (List Reaction) → Except String (List NormReaction)
  | none => .ok []
  | some xs => if xs.isEmpty then .ok [] else normalizeReactionList 0 xs

/-- The code sub-object of a normalized allergy; the error placeholder only
carries `text`. -/
structure NormCode where
  text : Option String := none
  coding : Option (List Coding) := none
  display : Option String := none
deriving DecidableEq, Repr

/-- A normalized AllergyIntolerance record (fhir-client.js lines 438-485);
fields the error placeholder omits are `Option` and `none` there.  The
`fhirVersion` constant and the impure timestamps are omitted. -/
structure NormAllergy where
  id : String
  resourceType : String
  patient : NormRef
  code : NormCode
  clinicalStatus : String
  verificationStatus : String
  type : Option String := none
  criticality : String
  category : Option NormCategory := none
  substance : SubstanceInfo
  reactions : List NormReaction
  recordedDate : Option String := none
  recorder : Option NormRef := none
  asserter : Option NormRef := none
  note : Option (List NormNote) := none
  error : Option String := none
  originalResource : Option Res := none
deriving DecidableEq, Repr

/-- The catch-branch placeholder of `normalizeAllergyData` (lines 487-503). -/
def errorPlaceholder (index : Nat) (msg : String) : NormAllergy :=
  { id := "error-" ++ toString index,
    resourceType := "AllergyIntolerance",
    patient := .nstr "Unknown",
    code := { text := some "Error processing allergy" },
    clinicalStatus := "unknown",
    verificationStatus := "unknown",
    criticality := "unable-to-assess",
    substance := { text := "Error processing allergy" },
    reactions := [],
    recordedDate := none,
    error := some msg }

/-- The try-branch of one element of `normalizeAllergyData` (lines
425-485).  The result is abstracted over the element index, which only
feeds the `id` fallback; the raise condition (a reaction without a
substance) does not depend on it. -/
def normalizeAllergyElemCore (a : Res) : Except String (Nat → NormAllergy) :=
  match extractSubstanceInfo (some a.code) with
  | .error m => .error m
  | .ok substance =>
    match normalizeReactions a.reaction with
    | .error m => .error m
    | .ok reactions =>
      .ok (fun index =>
    { id := jsOrD a.id ("allergy-" ++ toString index),
      resourceType := "AllergyIntolerance",
      patient := normalizeReference a.patient,
      code := { text := a.code.bind (fun c => c.text),
                coding := some (normalizeCoding (a.code.bind (fun c => c.coding))),
                display := some (extractDisplayText a.code) },
      clinicalStatus := normalizeStatus a.clinicalStatus "clinical",
      verificationStatus := normalizeStatus a.verificationStatus "verification",
      type := some (jsOrD a.type "allergy"),
      criticality := normalizeCriticality a.criticality,
      category := some (normalizeCategory a.category),
      substance := substance,
      reactions := reactions,
      recordedDate := a.recordedDate,
      recorder := some (normalizeReference a.recorder),
      asserter := some (normalizeReference a.asserter),
      note := some (normalizeNotes a.note),
      originalResource := some a })

/-- One element of the `normalizeAllergyData` map with its try/catch: a
null element (property access on null throws) or an internal raise yields
the error placeholder. -/
def normalizeAllergyElem (a? : Option Res) (index : Nat) : NormAllergy :=
  match a? with
  | none => errorPlaceholder index "TypeError: cannot read id of null"
  | some a =>
    match normalizeAllergyElemCore a with
    | .ok f => f index
    | .error m => errorPlaceholder index m

/-- Decides whether normalizing one raw element raises internally. -/
def allergyElemRaises : Option Res → Bool
  | none => true
  | some a =>
    match normalizeAllergyElemCore a with
    | .ok _ => false
    | .error _ => true

/-- Indexed map of `normalizeAllergyData` over the array elements. -/
def normalizeAllergyList (i : Nat) : List (Option Res) → List NormAllergy
  | [] => []
  | a :: rest => normalizeAllergyElem a i :: normalizeAllergyList (i + 1) rest

/-- Possible JS arguments to `normalizeAllergyData`: only one constructor
is an array; the others cover null, undefined, strings and plain objects. -/
inductive JsArg where
  | jnull
  | jundef
  | jstr (s : String)
  | jobjArg
  | jarr (xs : List (Option Res))
deriving DecidableEq, Repr

/-- Embeds `Array.isArray` on a `JsArg`. -/
def JsArg.isArr : JsArg → Bool
  | .jarr _ => true
  | _ => false

/-- Embeds `normalizeAllergyData` (fhir-client.js lines 413-505):
non-arrays and the empty array map to `[]`; otherwise each element is
normalized, with a per-element try/catch substituting the error
placeholder. -/
def normalizeAllergyData : JsArg → List NormAllergy
  | .jarr xs => if xs.isEmpty then [] else normalizeAllergyList 0 xs
  | _ => []

/-- Prescriber/requester info object; the no-requester branch carries only
`display`. -/
structure PrescriberOut where
  reference : Option String := none
  display : String
  type : Option String := none
deriving DecidableEq, Repr

/-- Embeds `extractPrescriberInfo` (fhir-client.js lines 1088-1098). -/
def extractPrescriberInfo (m : Res) : PrescriberOut :=
  match m.requester with
  | none => { display := "Unknown prescriber" }
  | some r =>
    { reference := some (jsOrD r.referenceField ""),
      display := jsOrD r.displayField "Unnamed prescriber",
      type := some (jsOrD r.typeField "") }

/-- Embeds `extractNotes` (fhir-client.js lines 1105-1111 and the identical
copy in medication-request.js): non-arrays and empty arrays yield `""`. -/
def extractNotes : Option NoteVal → String
  | some (.narr xs) =>
    if xs.isEmpty then ""
    else String.intercalate "; " ((xs.map (fun n => jsOrD n.text "")).filter (fun s => !s.isEmpty))
  | some (.nstr _) => ""
  | none => ""

/-- Embeds `extractMedicationDisplay` of fhir-client.js (lines 1020-1032):
`medicationCodeableConcept` first, fallback `"Unnamed Medication"`. -/
def extractMedicationDisplay (m : Res) : String :=
  match m.medicationCodeableConcept with
  | some cc => jsOrD cc.text (jsOrD ((coding0 cc).bind (fun c => c.display)) "Unnamed Medication")
  | none =>
    match m.medicationReference with
    | some r => jsOrD r.displayField "Medication Reference"
    | none => "Unnamed Medication"

/-- One dosage string of the fhir-client medication normalizer (lines
1044-1080): parts pushed in source order, falsy parts filtered, joined
with `", "`, empty join replaced by the fixed fallback text. -/
def medDosageBuilt (d : Dosage) : String :=
  let tparts :=
    match d.timing with
    | none => []
    | some t =>
      (match t.code with
       | none => []
       | some cc => [jsOrD cc.text (jsOrD ((coding0 cc).bind (fun c => c.display)) "")]) ++
      (match t.repeatF with
       | none => []
       | some r =>
         if intTruthy r.frequency && intTruthy r.period && strTruthy r.periodUnit then
           [toString (r.frequency.getD 0) ++ " time(s) per " ++ toString (r.period.getD 0) ++ " " ++ r.periodUnit.getD ""]
         else [])
  let dparts :=
    match d.doseAndRate with
    | none => []
    | some xs =>
      xs.foldl (fun acc dr =>
        acc ++ (match dr.doseQuantity with
          | none => []
          | some q => [intDisp q.value ++ " " ++ jsOrD q.unit ""])) []
  let rparts :=
    match d.route with
    | none => []
    | some rc => ["Route: " ++ jsOrD ((coding0 rc).bind (fun c => c.display)) (jsOrD rc.text "")]
  let joined := String.intercalate ", " ((tparts ++ dparts ++ rparts).filter (fun s => !s.isEmpty))
  if joined.isEmpty then "No specific dosage instructions" else joined

/-- The per-dosage map body: `dosage.text` when truthy, the built string
otherwise. -/
def medDosageText (d : Dosage) : String :=
  match d.text with
  | some t => if t.isEmpty then medDosageBuilt d else t
  | none => medDosageBuilt d

/-- Embeds `extractDosageInstructions` of fhir-client.js (lines
1039-1081). -/
def extractDosageInstructions (m : Res) : List String :=
  match m.dosageInstruction with
  | none => ["No dosage information available"]
  | some ds => ds.map medDosageText

/-- A normalized medication record (fhir-client.js lines 993-1003). -/
structure NormMed where
  id : String
  resourceType : String
  status : String
  intent : String
  medicationDisplay : String
  dosageInstructions : List String
  dateWritten : String
  prescriber : PrescriberOut
  note : String
  error : Option String := none
deriving DecidableEq, Repr

/-- Embeds `normalizeMedicationData` (fhir-client.js lines 989-1013): a
null input returns null; the try-block body cannot raise under the
modelled field types, so the catch branch is unreachable here. -/
def normalizeMedicationData : Option Res → Option NormMed
  | none => none
  | some m =>
    some { id := jsOrD m.id "",
           resourceType := jsOrD m.resourceType "MedicationRequest",
           status := jsOrD m.status "unknown",
           intent := jsOrD m.intent "order",
           medicationDisplay := extractMedicationDisplay m,
           dosageInstructions := extractDosageInstructions m,
           dateWritten := jsOrD m.authoredOn "",
           prescriber := extractPrescriberInfo m,
           note := extractNotes m.note }

/-- Property test `x && x.resourceType === t` used by the processor
filters. -/
def resIsType (o : Option Res) (t : String) : Bool :=
  match o with
  | some r => r.resourceType == some t
  | none => false

/-- Embeds `processMedicationResponse` (fhir-client.js lines 963-982). -/
def processMedicationResponse : Response → List (Option NormMed)
  | .rnull => []
  | .robj r entry _ =>
    if r.resourceType == some "Bundle" && entry.isSome then
      ((entry.getD []).filter (fun en => resIsType en.resource "MedicationRequest")).map
        (fun en => normalizeMedicationData en.resource)
    else if r.resourceType == some "MedicationRequest" then
      [normalizeMedicationData (some r)]
    else []
  | .rarr xs =>
    (xs.filter (fun it => resIsType it "MedicationRequest")).map normalizeMedicationData

/-- Embeds `extractVaccineDisplay` (fhir-client.js lines 1358-1366). -/
def extractVaccineDisplay (m : Res) : String :=
  match m.vaccineCode with
  | none => "Unknown vaccine"
  | some cc => jsOrD cc.text (jsOrD ((coding0 cc).bind (fun c => c.display)) "Unknown vaccine")

/-- Embeds `extractOccurrenceDate` (lines 1373-1383). -/
def extractOccurrenceDate (m : Res) : String :=
  match m.occurrenceDateTime with
  | some s =>
    if s.isEmpty then (match m.occurrenceString with
      | some t => if t.isEmpty then "" else t
      | none => "")
    else s
  | none =>
    match m.occurrenceString with
    | some t => if t.isEmpty then "" else t
    | none => ""

/-- Embeds `extractPerformerInfo` (lines 1390-1406). -/
def extractPerformerInfo (m : Res) : PrescriberOut :=
  match m.performer with
  | none => { display := "Unknown performer" }
  | some ps =>
    match ps.head? with
    | none => { display := "Unknown performer" }
    | some p =>
      match p.actor with
      | none => { display := "Unknown performer" }
      | some actor =>
        { reference := some (jsOrD actor.referenceField ""),
          display := jsOrD actor.displayField "Unnamed performer",
          type := some (jsOrD actor.typeField "") }

/-- Embeds `extractSite` (lines 1413-1421). -/
def extractSite (m : Res) : String :=
  match m.site with
  | none => ""
  | some cc => jsOrD cc.text (jsOrD ((coding0 cc).bind (fun c => c.display)) "")

/-- Embeds `extractRoute` (lines 1428-1436). -/
def extractRoute (m : Res) : String :=
  match m.route with
  | none => ""
  | some cc => jsOrD cc.text (jsOrD ((coding0 cc).bind (fun c => c.display)) "")

/-- A normalized immunization record (fhir-client.js lines 1330-1341). -/
structure NormImm where
  id : String
  resourceType : String
  status : String
  vaccineDisplay : String
  occurrenceDate : String
  performer : PrescriberOut
  lotNumber : String
  site : String
  route : String
  note : String
  error : Option String := none
deriving DecidableEq, Repr

/-- Embeds `normalizeImmunizationData` (fhir-client.js lines 1326-1351);
as for medications, the catch branch is unreachable under the modelled
field types. -/
def normalizeImmunizationData : Option Res → Option NormImm
  | none => none
  | some m =>
    some { id := jsOrD m.id "",
           resourceType := jsOrD m.resourceType "Immunization",
           status := jsOrD m.status "unknown",
           vaccineDisplay := extractVaccineDisplay m,
           occurrenceDate := extractOccurrenceDate m,
           performer := extractPerformerInfo m,
           lotNumber := jsOrD m.lotNumber "",
           site := extractSite m,
           route := extractRoute m,
           note := extractNotes m.note }

/-- Embeds `processImmunizationResponse` (fhir-client.js lines 1300-1319). -/
def processImmunizationResponse : Response → List (Option NormImm)
  | .rnull => []
  | .robj r entry _ =>
    if r.resourceType == some "Bundle" && entry.isSome then
      ((entry.getD []).filter (fun en => resIsType en.resource "Immunization")).map
        (fun en => normalizeImmunizationData en.resource)
    else if r.resourceType == some "Immunization" then
      [normalizeImmunizationData (some r)]
    else []
  | .rarr xs =>
    (xs.filter (fun it => resIsType it "Immunization")).map normalizeImmunizationData

/-- Embeds `extractMedicationDisplay` of medication-request.js (lines
161-173): unlike the fhir-client variant it checks `medicationReference`
first and its fallback string is `"Unknown Medication"`. -/
def extractMedicationDisplayReq (m : Res) : String :=
  match m.medicationReference with
  | some r => jsOrD r.displayField "Unknown Medication"
  | none =>
    match m.medicationCodeableConcept with
    | some cc => jsOrD cc.text (jsOrD ((coding0 cc).bind (fun c => c.display)) "Unknown Medication")
    | none => "Unknown Medication"

/-- The `timing.repeat` branch of `extractTiming` (medication-request.js
lines 215-229). -/
def extractTimingRepeat : Option RepeatObj → String
  | none => ""
  | some r =>
    let s1 :=
      if intTruthy r.frequency && intTruthy r.period then
        toString (r.frequency.getD 0) ++ " time(s) per " ++ toString (r.period.getD 0) ++ " " ++ jsOrD r.periodUnit ""
      else ""
    match r.when with
    | some ws =>
      (if s1.isEmpty then "" else s1 ++ ", ") ++ String.intercalate ", " ws
    | none => s1

/-- Embeds `extractTiming` (medication-request.js lines 208-232). -/
def extractTiming (t : Timing) : String :=
  match t.code with
  | some cc =>
    if strTruthy cc.text then cc.text.getD ""
    else extractTimingRepeat t.repeatF
  | none => extractTimingRepeat t.repeatF

/-- Embeds `extractDoseQuantity` (medication-request.js lines 239-252). -/
def extractDoseQuantity (q : DoseQuantity) : String :=
  let unit := jsOrD q.unit (jsOrD q.code "")
  if intTruthy q.value && !unit.isEmpty then intDisp q.value ++ " " ++ unit
  else if intTruthy q.value then intDisp q.value
  else ""

/-- A normalized dosage instruction of the medication-request module
(lines 185-200). -/
structure NormDosage where
  text : String
  timing : String
  route : String
  doseQuantity : String
  asNeeded : String
  patientInstruction : String
  display : String
deriving DecidableEq, Repr

/-- Embeds `formatDosageInstruction` (medication-request.js lines
259-289): the `display` field is not yet set when this runs, so it takes
the six component fields. -/
def formatDosageInstruction (text timing route doseQuantity asNeeded patientInstruction : String) : String :=
  if !text.isEmpty then text
  else
    String.intercalate " "
      (((if doseQuantity.isEmpty then [] else [doseQuantity]) ++
        (if route.isEmpty then [] else ["via " ++ route]) ++
        (if timing.isEmpty then [] else [timing]) ++
        (if asNeeded.isEmpty then [] else [asNeeded]) ++
        (if patientInstruction.isEmpty then [] else ["(" ++ patientInstruction ++ ")"])))

/-- One element of `extractDosageInstructions` of medication-request.js
(lines 180-201). -/
def reqDosage (d : Dosage) : NormDosage :=
  let text := jsOrD d.text ""
  let timing := match d.timing with
    | some t => extractTiming t
    | none => ""
  let route := match d.route with
    | some rc => jsOrD rc.text (jsOrD ((coding0 rc).bind (fun c => c.display)) "")
    | none => ""
  let doseQuantity := match d.doseQuantity with
    | some q => extractDoseQuantity q
    | none => ""
  let asNeeded :=
    if d.asNeeded == some true then "As needed"
    else match d.asNeededCodeableConcept with
      | some cc => jsOrD cc.text ""
      | none => ""
  let patientInstruction := jsOrD d.patientInstruction ""
  { text := text, timing := timing, route := route, doseQuantity := doseQuantity,
    asNeeded := asNeeded, patientInstruction := patientInstruction,
    display := formatDosageInstruction text timing route doseQuantity asNeeded patientInstruction }

/-- Embeds `extractDosageInstructions` of medication-request.js: a missing
or non-array field yields `[]` (the fhir-client variant instead yields a
fixed message). -/
def extractDosageInstructionsReq (m : Res) : List NormDosage :=
  match m.dosageInstruction with
  | none => []
  | some ds => ds.map reqDosage

/-- A normalized medication request (medication-request.js lines 132-144);
the catch-branch record (lines 147-153) omits most fields, which are
therefore `Option` and `none` there. -/
structure NormMedReq where
  id : String
  resourceType : String
  status : String
  intent : Option String := none
  priority : Option String := none
  medicationDisplay : Option String := none
  authoredOn : Option String := none
  dosageInstructions : Option (List NormDosage) := none
  requester : Option PrescriberOut := none
  note : Option String := none
  rawResource : Option Res := none
  error : Option String := none
deriving DecidableEq, Repr

/-- Embeds `extractRequesterInfo` (medication-request.js lines 296-306),
identical in shape to `extractPrescriberInfo`. -/
def extractRequesterInfo (m : Res) : PrescriberOut :=
  match m.requester with
  | none => { display := "Unknown prescriber" }
  | some r =>
    { reference := some (jsOrD r.referenceField ""),
      display := jsOrD r.displayField "Unnamed prescriber",
      type := some (jsOrD r.typeField "") }

/-- Embeds `normalizeMedicationRequestData` (medication-request.js lines
126-154): a null input trips the explicit throw and lands in the catch
branch; non-null inputs cannot raise under the modelled field types. -/
def normalizeMedicationRequestData : Option Res → NormMedReq
  | none =>
    { id := "unknown", resourceType := "MedicationRequest", status := "unknown",
      error := some "Error processing medication request data" }
  | some m =>
    { id := jsOrD m.id "",
      resourceType := jsOrD m.resourceType "MedicationRequest",
      status := jsOrD m.status "unknown",
      intent := some (jsOrD m.intent "unknown"),
      priority := some (jsOrD m.priority "routine"),
      medicationDisplay := some (extractMedicationDisplayReq m),
      authoredOn := some (jsOrD m.authoredOn ""),
      dosageInstructions := some (extractDosageInstructionsReq m),
      requester := some (extractRequesterInfo m),
      note := some (extractNotes m.note),
      rawResource := some m }

/-- Embeds `processMedicationRequestResponse` (medication-request.js lines
90-119): the `entry`-array check precedes the bare-array check and is not
gated on `resourceType === "Bundle"`; the surrounding try/catch cannot
trip under the modelled field types. -/
def processMedicationRequestResponse : Response → List NormMedReq
  | .rnull => []
  | .robj _ entry _ =>
    match entry with
    | some es =>
      (es.filter (fun en => resIsType en.resource "MedicationRequest")).map
        (fun en => normalizeMedicationRequestData en.resource)
    | none => []
  | .rarr xs =>
    (xs.filter (fun it => resIsType it "MedicationRequest")).map normalizeMedicationRequestData

/-- An authenticated FHIR client: `request` is absent when the object lacks
the method (`!client.request`); when present, `request k` is the settled
outcome of the k-th request the client serves (k counted from 0). -/
structure Client where
  request : Option (Nat → Except EVal Response)

/-- Outcome of a fetcher call together with how many times
`client.request` was invoked. -/
structure FetchOut (α : Type) where
  result : Except EVal α
  requests : Nat
deriving Repr

/-- The classified invalid-client error of `getAllergyData` (fhir-client.js
lines 41-45). -/
def allergyInvalidClientError : EVal :=
  { createError (some FhirServerError.INVALID_CLIENT) "Invalid FHIR client provided" with
    detailsHelp := some "Please ensure you are properly authenticated before accessing FHIR resources." }

/-- The classified missing-patient-id error of `getAllergyData` (lines
49-53). -/
def allergyMissingParameterError : EVal :=
  { createError (some FhirServerError.MISSING_PARAMETER) "Patient ID is required" with
    detailsHelp := some "A valid patient ID is required to retrieve allergy information." }

/-- Test `error.status >= 500` (false when status is absent). -/
def statusAtLeast500 : Option Int → Bool
  | some s => decide (500 ≤ s)
  | none => false

/-- Test `error.message && error.message.includes('network')`. -/
def msgIncludesNetwork : Option String → Bool
  | some m => strIncludes m "network"
  | none => false

/-- The catch block of `getAllergyData` (fhir-client.js lines 85-144): a
structured error (truthy `type`) passes through unchanged; raw errors are
classified by HTTP status, then by a network message, then wrapped as
unknown. -/
def classifyAllergyError (e : EVal) : EVal :=
  if strTruthy e.type then e
  else if e.status == some 401 || e.status == some 403 then
    { createError (some FhirServerError.UNAUTHORIZED) "Unauthorized access to FHIR resources" with
      detailsHelp := some "Your session may have expired. Please try refreshing the page to re-authenticate.",
      detailsStatus := e.status }
  else if e.status == some 404 then
    { createError (some FhirServerError.RESOURCE_NOT_FOUND) "Allergy resources not found" with
      detailsHelp := some "The requested allergy information could not be found for this patient.",
      detailsStatus := e.status }
  else if statusAtLeast500 e.status then
    { createError (some FhirServerError.SERVER_ERROR) "FHIR server error occurred" with
      detailsHelp := some "The FHIR server encountered an error. Please try again later.",
      detailsStatus := e.status }
  else if msgIncludesNetwork e.message then
    { createError (some NetworkError.CONNECTION_FAILED) "Network error while connecting to FHIR server" with
      detailsHelp := some "Please check your internet connection and try again." }
  else
    { createError (some FhirServerError.UNKNOWN)
        ("Error retrieving allergy data: " ++ jsOrD e.message "Unknown error") with
      detailsHelp := some "An unexpected error occurred while retrieving allergy data. Please try again." }

/-- Embeds `getAllergyData` (fhir-client.js lines 31-145), with `k` the
index of the request this call issues when it reaches the transport.
Client and patient-id validation precede the request; every thrown error
passes through the catch block `classifyAllergyError`. -/
def getAllergyDataAt (client : Option Client) (patientId : String) (k : Nat) :
    FetchOut (List (Option Res)) :=
  match client with
  | none => ⟨.error (classifyAllergyError allergyInvalidClientError), 0⟩
  | some c =>
    match c.request with
    | none => ⟨.error (classifyAllergyError allergyInvalidClientError), 0⟩
    | some req =>
      if patientId.isEmpty then
        ⟨.error (classifyAllergyError allergyMissingParameterError), 0⟩
      else
        match req k with
        | .error e => ⟨.error (classifyAllergyError e), 1⟩
        | .ok resp =>
          match processAllergyResponse resp with
          | .error e => ⟨.error (classifyAllergyError e), 1⟩
          | .ok processed => ⟨.ok (validateAndNormalizeResponse processed), 1⟩

/-- Embeds `getAllergyDataWithRetry` (fhir-client.js lines 696-756) with
empty caller options.  Of the option object it builds, `retryOperation`
reads only `maxRetries`, `delay` and `backoff`: the hooks are supplied
under the keys `retryCondition`/`onFailure`/`retryableStatusCodes`, while
`retryOperation` destructures `shouldRetry`/`onFinalFailure`/
`retryStatusCodes`, so those hooks are never seen and the defaults apply.
The outer catch rethrows structured errors unchanged and wraps anything
else as `DATA_RETRIEVAL_FAILED`. -/
def getAllergyDataWithRetry (client : Option Client) (patientId : String) :
    RetryTrace (List (Option Res)) :=
  let tr := retryOperation
    (fun attempt => (getAllergyDataAt client patientId (attempt - 1)).result)
    { maxRetries := 3, delay := 1000, backoff := 2 }
  match tr.result with
  | .error (some e) =>
    if strTruthy e.type then tr
    else
      { tr with result := .error (some
          ({ createError (some FhirServerError.DATA_RETRIEVAL_FAILED)
              "Failed to retrieve allergy data after multiple attempts" with
            detailsHelp := some "Please try again later. If the problem persists, contact support." })) }
  | _ => tr

/-- Embeds `getAllergyDataPaginated` (fhir-client.js lines 199-250).  The
initial `getAllergyData` resolves — when it resolves at all — with the
array produced by `validateAndNormalizeResponse`, so the
`Array.isArray(response)` early return on line 219 always fires and the
link-following `while` loop below it is unreachable: the function returns
the first page sliced to `maxPages * pageSize` after a single request. -/
def getAllergyDataPaginated (client : Option Client) (patientId : String)
    (maxPages pageSize : Nat) : FetchOut (List (Option Res)) :=
  let first := getAllergyDataAt client patientId 0
  match first.result with
  | .error e => ⟨.error e, first.requests⟩
  | .ok response => ⟨.ok (response.take (maxPages * pageSize)), first.requests⟩

/-- The classified invalid-client error of `getMedicationRequestData`
(medication-request.js lines 29-33). -/
def medReqInvalidClientError : EVal :=
  { createError (some FhirServerError.INVALID_CLIENT) "Invalid FHIR client provided" with
    detailsHelp := some "Please ensure you are properly authenticated before accessing FHIR resources." }

/-- The classified missing-patient-id error of `getMedicationRequestData`
(lines 37-41). -/
def medReqMissingParameterError : EVal :=
  { createError (some FhirServerError.MISSING_PARAMETER) "Patient ID is required" with
    detailsHelp := some "A valid patient ID is required to retrieve medication request information." }

/-- The catch block of `getMedicationRequestData` (lines 64-82):
structured errors pass through, anything else is wrapped as
`DATA_RETRIEVAL_FAILED`. -/
def classifyMedReqError (e : EVal) : EVal :=
  if strTruthy e.type then e
  else
    { createError (some FhirServerError.DATA_RETRIEVAL_FAILED)
        "Failed to retrieve medication request data" with
      detailsHelp := some "Please try again later. If the problem persists, contact support." }

/-- Embeds `getMedicationRequestData` (medication-request.js lines 18-83),
with `k` the index of the request this call issues. -/
def getMedicationRequestDataAt (client : Option Client) (patientId : String) (k : Nat) :
    FetchOut (List NormMedReq) :=
  match client with
  | none => ⟨.error (classifyMedReqError medReqInvalidClientError), 0⟩
  | some c =>
    match c.request with
    | none => ⟨.error (classifyMedReqError medReqInvalidClientError), 0⟩
    | some req =>
      if patientId.isEmpty then
        ⟨.error (classifyMedReqError medReqMissingParameterError), 0⟩
      else
        match req k with
        | .error e => ⟨.error (classifyMedReqError e), 1⟩
        | .ok resp => ⟨.ok (processMedicationRequestResponse resp), 1⟩

/-- Helper: when the first invocation fails with an error the default
predicate rejects and no custom predicate is supplied, `retryOperation`
throws after exactly one invocation with no wait. -/
theorem retryOperation_first_throw {α : Type} (op : Nat → Except EVal α)
    (o : RetryOpts) (e : EVal) (hsr : o.shouldRetry = none)
    (hmr : 1 ≤ o.maxRetries) (hop : op 1 = .error e)
    (hnr : shouldRetryDefault o.retryStatusCodes e = false) :
    retryOperation op o =
      ⟨.error (some e), 1, 0, [], o.onFinalFailure.map (fun f => f e 1)⟩ := by
  obtain ⟨m, hm⟩ : ∃ m, o.maxRetries = m + 1 :=
    ⟨o.maxRetries - 1, by omega⟩
  unfold retryOperation
  rw [hsr, hm]
  simp only [Option.getD]
  rw [retryGo, hop]
  simp [hnr]

/-- C1: the claim says an always-retryably-failing operation is invoked
`maxRetries + 1` times with a final classified rejection carrying
`details.retriesAttempted = maxRetries`.  The loop of `retryOperation`
runs `attempt = 1 .. maxRetries`, so `maxRetries = 0` performs zero
invocations and rejects with `undefined` (`throw lastError` with
`lastError` never set) and `maxRetries = 3` performs exactly 3 invocations
(two waits of 1000ms and 2000ms) and rejects with the raw error itself. -/
theorem retryOperation_attempt_count_at_failing_inputs :
    (retryOperation (fun _ => .error { status := some 503 } : Nat → Except EVal Unit)
        { maxRetries := 0 } = ⟨.error none, 0, 0, [], none⟩) ∧
    (retryOperation (fun _ => .error { status := some 503 } : Nat → Except EVal Unit)
        {} = ⟨.error (some { status := some 503 }), 3, 3000, [1, 2], none⟩) :=
  ⟨rfl, rfl⟩

/-- C3: for an error whose HTTP status lies outside `retryStatusCodes` and
no custom `shouldRetry`, the operation is invoked exactly once, no backoff
wait is accumulated, and the rejection is immediate. -/
theorem retryOperation_nonretryable_single_attempt {α : Type}
    (op : Nat → Except EVal α) (o : RetryOpts) (e : EVal) (s : Int)
    (hsr : o.shouldRetry = none) (hmr : 1 ≤ o.maxRetries)
    (hop : op 1 = .error e) (hst : e.status = some s)
    (hcode : o.retryStatusCodes.contains s = false) :
    retryOperation op o =
      ⟨.error (some e), 1, 0, [], o.onFinalFailure.map (fun f => f e 1)⟩ := by
  apply retryOperation_first_throw op o e hsr hmr hop
  have hnm : s ∉ o.retryStatusCodes := by simpa using hcode
  simp [shouldRetryDefault, hst, hnm]

/-- Witness for C3 at a concrete 401 error under the default options. -/
theorem retryOperation_nonretryable_single_attempt_witness :
    retryOperation (fun _ => .error { status := some 401 } : Nat → Except EVal Unit) {} =
      ⟨.error (some { status := some 401 }), 1, 0, [], none⟩ :=
  retryOperation_nonretryable_single_attempt
    (fun _ => .error { status := some 401 }) {} { status := some 401 } 401
    rfl (by decide) rfl rfl rfl

/-- C2 counterexample: with an `onFinalFailure` hook that wraps the error
into a `MAX_RETRIES_EXCEEDED` record, `retryOperation` still rejects with
the raw thrown error (here a bare `{status: 503}` object with no `type`),
discarding the classified record the hook computed. -/
theorem retryOperation_rejects_raw_error :
    (retryOperation (fun _ => .error { status := some 503 } : Nat → Except EVal Unit)
        { onFinalFailure := some (fun _ n =>
            { createError (some NetworkError.MAX_RETRIES_EXCEEDED)
                "Failed to connect to FHIR server after multiple attempts" with
              detailsRetriesAttempted := some n }) }).result =
      .error (some { status := some 503 }) ∧
    ({ status := some 503 } : EVal).type = none ∧
    (retryOperation (fun _ => .error { status := some 503 } : Nat → Except EVal Unit)
        { onFinalFailure := some (fun _ n =>
            { createError (some NetworkError.MAX_RETRIES_EXCEEDED)
                "Failed to connect to FHIR server after multiple attempts" with
              detailsRetriesAttempted := some n }) }).finalFailureResult =
      some { createError (some NetworkError.MAX_RETRIES_EXCEEDED)
              "Failed to connect to FHIR server after multiple attempts" with
            detailsRetriesAttempted := some 3 } :=
  ⟨rfl, rfl, rfl⟩

/-- Helper: classifying a type-less (raw) error always yields a record
whose `type` is a non-empty member of the fixed enumerations, with no
top-level `status` and no `retriesAttempted` detail. -/
theorem classifyAllergyError_of_raw (e : EVal) (h : e.type = none) :
    ∃ t, (classifyAllergyError e).type = some t ∧
      t ∈ ["UNAUTHORIZED", "RESOURCE_NOT_FOUND", "SERVER_ERROR", "CONNECTION_FAILED", "UNKNOWN_ERROR"] ∧
      strTruthy (classifyAllergyError e).type = true ∧
      (classifyAllergyError e).status = none ∧
      (classifyAllergyError e).detailsRetriesAttempted = none := by
  unfold classifyAllergyError
  rw [h]
  simp only [strTruthy, Bool.false_eq_true, if_false]
  split
  · exact ⟨"UNAUTHORIZED", rfl, by decide, rfl, rfl, rfl⟩
  split
  · exact ⟨"RESOURCE_NOT_FOUND", rfl, by decide, rfl, rfl, rfl⟩
  split
  · exact ⟨"SERVER_ERROR", rfl, by decide, rfl, rfl, rfl⟩
  split
  · exact ⟨"CONNECTION_FAILED", rfl, by decide, rfl, rfl, rfl⟩
  · exact ⟨"UNKNOWN_ERROR", rfl, by decide, rfl, rfl, rfl⟩

/-- C2 (amended): a caller of `getAllergyDataWithRetry` whose transport
always rejects with raw (type-less) errors does receive a structured error
whose `type` is drawn from the fixed enumerations — but it is produced by
`getAllergyData`'s own catch-block classifier and passed through, not by
the `onFailure` hook (which `retryOperation` never reads), it carries no
`retriesAttempted` detail, and — the classified error having no top-level
`status` — only one invocation is ever made. -/
theorem getAllergyDataWithRetry_surfaces_classified_error
    (req : Nat → Except EVal Response) (patientId : String) (e : EVal)
    (hpid : patientId.isEmpty = false) (hreq : req 0 = .error e)
    (htype : e.type = none) :
    ∃ t, (getAllergyDataWithRetry (some ⟨some req⟩) patientId).result =
        .error (some (classifyAllergyError e)) ∧
      (classifyAllergyError e).type = some t ∧
      t ∈ ["UNAUTHORIZED", "RESOURCE_NOT_FOUND", "SERVER_ERROR", "CONNECTION_FAILED", "UNKNOWN_ERROR"] ∧
      (classifyAllergyError e).detailsRetriesAttempted = none ∧
      (getAllergyDataWithRetry (some ⟨some req⟩) patientId).invocations = 1 := by
  obtain ⟨t, ht, hmem, htr, hstat, hra⟩ := classifyAllergyError_of_raw e htype
  have hga : (getAllergyDataAt (some ⟨some req⟩) patientId 0).result =
      .error (classifyAllergyError e) := by
    unfold getAllergyDataAt
    simp [hpid, hreq]
  have hop : (fun attempt =>
      (getAllergyDataAt (some ⟨some req⟩) patientId (attempt - 1)).result) 1 =
      .error (classifyAllergyError e) := hga
  have hnr : shouldRetryDefault [408, 429, 500, 502, 503, 504]
      (classifyAllergyError e) = false := by
    simp [shouldRetryDefault, hstat]
  have htrace := retryOperation_first_throw
    (fun attempt => (getAllergyDataAt (some ⟨some req⟩) patientId (attempt - 1)).result)
    { maxRetries := 3, delay := 1000, backoff := 2 }
    (classifyAllergyError e) rfl (by decide) hop hnr
  refine ⟨t, ?_, ht, hmem, hra, ?_⟩
  · unfold getAllergyDataWithRetry
    rw [htrace]
    simp [htr]
  · unfold getAllergyDataWithRetry
    rw [htrace]
    simp [htr]

/-- Witness for the amended C2 at a transport that always rejects with a
raw `{status: 503}` error. -/
theorem getAllergyDataWithRetry_surfaces_classified_error_witness :
    ∃ t, (getAllergyDataWithRetry
        (some ⟨some (fun _ => .error { status := some 503 })⟩) "smart-1288992").result =
        .error (some (classifyAllergyError { status := some 503 })) ∧
      (classifyAllergyError { status := some 503 }).type = some t ∧
      t ∈ ["UNAUTHORIZED", "RESOURCE_NOT_FOUND", "SERVER_ERROR", "CONNECTION_FAILED", "UNKNOWN_ERROR"] ∧
      (classifyAllergyError { status := some 503 }).detailsRetriesAttempted = none ∧
      (getAllergyDataWithRetry
        (some ⟨some (fun _ => .error { status := some 503 })⟩) "smart-1288992").invocations = 1 :=
  getAllergyDataWithRetry_surfaces_classified_error
    (fun _ => .error { status := some 503 }) "smart-1288992" { status := some 503 }
    rfl rfl rfl

/-- Helper: a membership-guarded fallback stays inside the set extended by
the fallback value. -/
theorem ite_contains_mem (l : List String) (x d : String) :
    (if l.contains x then x else d) ∈ d :: l := by
  by_cases h : l.contains x = true
  · rw [if_pos h]
    exact List.mem_cons_of_mem _ (by simpa using h)
  · rw [if_neg h]
    exact List.mem_cons_self _ _

/-- Helper: the clinical branch of `normalizeStatus` only emits its value
set or `"unknown"`. -/
theorem normalizeStatus_clinical_mem (so : Option CodeableConcept) :
    normalizeStatus so "clinical" ∈ ["unknown", "active", "inactive", "resolved"] := by
  unfold normalizeStatus
  rcases so with _ | s
  · decide
  · by_cases h : strTruthy (jsOr ((coding0 s).bind fun c => c.code) s.text) = true
    · simp only [h, Bool.not_true, Bool.false_eq_true, if_false]
      exact ite_contains_mem ["active", "inactive", "resolved"] _ "unknown"
    · simp only [Bool.not_eq_true] at h
      simp [h]

/-- Helper: the verification branch of `normalizeStatus` only emits its
value set or `"unknown"`. -/
theorem normalizeStatus_verification_mem (so : Option CodeableConcept) :
    normalizeStatus so "verification" ∈
      ["unknown", "unconfirmed", "confirmed", "refuted", "entered-in-error"] := by
  unfold normalizeStatus
  rcases so with _ | s
  · decide
  · by_cases h : strTruthy (jsOr ((coding0 s).bind fun c => c.code) s.text) = true
    · simp only [h, Bool.not_true, Bool.false_eq_true, if_false]
      exact ite_contains_mem ["unconfirmed", "confirmed", "refuted", "entered-in-error"] _ "unknown"
    · simp only [Bool.not_eq_true] at h
      simp [h]

/-- Helper: `normalizeCriticality` only emits its value set. -/
theorem normalizeCriticality_mem (c : Option String) :
    normalizeCriticality c ∈ ["unable-to-assess", "low", "high"] := by
  unfold normalizeCriticality
  by_cases h : strTruthy c = true
  · simp only [h, Bool.not_true, Bool.false_eq_true, if_false]
    have := ite_contains_mem ["low", "high", "unable-to-assess"] (jsToLower (c.getD "")) "unable-to-assess"
    simp only [List.mem_cons, List.mem_singleton] at this ⊢
    tauto
  · simp only [Bool.not_eq_true] at h
    simp [h]

/-- Helper: `normalizeSeverity` only emits its value set. -/
theorem normalizeSeverity_mem (s : Option String) :
    normalizeSeverity s ∈ ["mild", "moderate", "severe"] := by
  unfold normalizeSeverity
  by_cases h : strTruthy s = true
  · simp only [h, Bool.not_true, Bool.false_eq_true, if_false]
    have := ite_contains_mem ["mild", "moderate", "severe"] (jsToLower (s.getD "")) "mild"
    simp only [List.mem_cons, List.mem_singleton] at this ⊢
    tauto
  · simp only [Bool.not_eq_true] at h
    simp [h]

/-- Modelled from the spec: the FHIR R4 value set of the
MedicationRequest `status` element, the reference set for the claim that
enumerated status fields are FHIR-defined-or-unknown. -/
def fhirMedicationRequestStatusValues : List String :=
  ["active", "on-hold", "cancelled", "completed", "entered-in-error",
   "stopped", "draft", "unknown"]

/-- C4 counterexample: the medication normalizer does not value-set check
its `status`: an unrecognized raw string from the source resource is
propagated verbatim into the normalized record. -/
theorem normalizeMedicationData_passes_through_raw_status :
    (normalizeMedicationData
        (some { resourceType := some "MedicationRequest", status := some "bogus-status" })).map
      (fun nm => nm.status) = some "bogus-status" ∧
    "bogus-status" ∉ fhirMedicationRequestStatusValues ∧
    "bogus-status" ≠ "unknown" :=
  ⟨rfl, by decide, by decide⟩

/-- C4 (amended): the allergy-side enumerated fields (clinicalStatus,
verificationStatus, criticality, severity, and a scalar category) are
constrained to their FHIR value sets with a fixed fallback; an
array-valued category keeps only entries whose lowercase form is valid but
preserves their original casing; and the medication / immunization /
medication-request `status` fields are the raw source string whenever it
is truthy, defaulted only when absent or empty. -/
theorem normalizer_enumerated_fields_constrained :
    (∀ so, normalizeStatus so "clinical" ∈ ["unknown", "active", "inactive", "resolved"]) ∧
    (∀ so, normalizeStatus so "verification" ∈
      ["unknown", "unconfirmed", "confirmed", "refuted", "entered-in-error"]) ∧
    (∀ c, normalizeCriticality c ∈ ["unable-to-assess", "low", "high"]) ∧
    (∀ s, normalizeSeverity s ∈ ["mild", "moderate", "severe"]) ∧
    (∀ cat, ∃ s, normalizeCategory (some (.cstr cat)) = .ncstr s ∧
      s ∈ ["unknown", "food", "medication", "environment", "biologic"]) ∧
    (normalizeCategory none = .ncstr "unknown") ∧
    (∀ xs ys x, normalizeCategory (some (.carr xs)) = .ncarr ys → x ∈ ys →
      jsToLower x ∈ ["food", "medication", "environment", "biologic"]) ∧
    (∀ m, (normalizeMedicationData (some m)).map (fun nm => nm.status) =
      some (jsOrD m.status "unknown")) ∧
    (∀ m, (normalizeImmunizationData (some m)).map (fun nm => nm.status) =
      some (jsOrD m.status "unknown")) ∧
    (∀ m, (normalizeMedicationRequestData (some m)).status = jsOrD m.status "unknown") := by
  refine ⟨normalizeStatus_clinical_mem, normalizeStatus_verification_mem,
    normalizeCriticality_mem, normalizeSeverity_mem, ?_, rfl, ?_, fun m => rfl, fun m => rfl, fun m => rfl⟩
  · intro cat
    by_cases he : cat.isEmpty = true
    · exact ⟨"unknown", by simp only [normalizeCategory]; rw [if_pos he], by decide⟩
    · by_cases hc : ["food", "medication", "environment", "biologic"].contains (jsToLower cat) = true
      · refine ⟨jsToLower cat, by simp only [normalizeCategory]; rw [if_neg he, if_pos hc], ?_⟩
        have hm : jsToLower cat ∈ ["food", "medication", "environment", "biologic"] := by
          simpa using hc
        simp only [List.mem_cons, List.mem_singleton] at hm ⊢
        tauto
      · exact ⟨"unknown", by simp only [normalizeCategory]; rw [if_neg he, if_neg hc], by decide⟩
  · intro xs ys x hys hx
    unfold normalizeCategory at hys
    cases hys
    obtain ⟨-, hp⟩ := List.mem_filter.mp hx
    simpa using hp

/-- Witness for the amended C4: a concrete unrecognized clinical status
collapses to a set member, and a concrete array category element passes
the lowercase filter. -/
theorem normalizer_enumerated_fields_constrained_witness :
    normalizeStatus (some { text := some "Bogus-Val" }) "clinical" ∈
      ["unknown", "active", "inactive", "resolved"] ∧
    jsToLower "FOOD" ∈ ["food", "medication", "environment", "biologic"] := by
  constructor
  · exact normalizer_enumerated_fields_constrained.1 _
  · exact normalizer_enumerated_fields_constrained.2.2.2.2.2.2.1 ["FOOD"] ["FOOD"] "FOOD" (by decide) (by decide)

/-- C5 counterexample: the fallback display strings of the code differ
from the claimed `"Unknown Substance"` / `"Unknown Medication"` /
`"Unknown Vaccine"`: the immunization fallback is `"Unknown vaccine"`
(lowercase v), the fhir-client medication fallback is
`"Unnamed Medication"`, and the allergy fallback is
`"Unknown substance"` (lowercase s). -/
theorem display_fallback_strings_differ :
    (normalizeImmunizationData (some { resourceType := some "Immunization" })).map
      (fun n => n.vaccineDisplay) = some "Unknown vaccine" ∧
    "Unknown vaccine" ≠ "Unknown Vaccine" ∧
    (normalizeMedicationData (some { resourceType := some "MedicationRequest" })).map
      (fun n => n.medicationDisplay) = some "Unnamed Medication" ∧
    "Unnamed Medication" ≠ "Unknown Medication" ∧
    extractSubstanceInfo (some none) = .ok { text := "Unknown substance" } ∧
    "Unknown substance" ≠ "Unknown Substance" :=
  ⟨rfl, by decide, rfl, by decide, rfl, by decide⟩

/-- C5 (amended): on a resource missing its primary coding field each
normalizer returns its fixed fallback display without raising: allergy
substance text `"Unknown substance"`, fhir-client medication display
`"Unnamed Medication"`, medication-request display
`"Unknown Medication"`, immunization display `"Unknown vaccine"`. -/
theorem display_fallbacks_on_missing_coding :
    (∀ a : Res, a.code = none →
      extractSubstanceInfo (some a.code) = .ok { text := "Unknown substance" }) ∧
    (∀ a : Res, a.code = none → a.reaction = none → ∀ i,
      (normalizeAllergyElem (some a) i).substance = { text := "Unknown substance" }) ∧
    (∀ m : Res, m.medicationCodeableConcept = none → m.medicationReference = none →
      extractMedicationDisplay m = "Unnamed Medication" ∧
      (normalizeMedicationData (some m)).map (fun n => n.medicationDisplay) =
        some "Unnamed Medication") ∧
    (∀ m : Res, m.medicationCodeableConcept = none → m.medicationReference = none →
      extractMedicationDisplayReq m = "Unknown Medication" ∧
      (normalizeMedicationRequestData (some m)).medicationDisplay =
        some "Unknown Medication") ∧
    (∀ m : Res, m.vaccineCode = none →
      extractVaccineDisplay m = "Unknown vaccine" ∧
      (normalizeImmunizationData (some m)).map (fun n => n.vaccineDisplay) =
        some "Unknown vaccine") := by
  refine ⟨?_, ?_, ?_, ?_, ?_⟩
  · intro a h
    rw [h]
    rfl
  · intro a h1 h2 i
    simp [normalizeAllergyElem, normalizeAllergyElemCore, h1, h2,
      extractSubstanceInfo, normalizeReactions]
  · intro m h1 h2
    constructor
    · unfold extractMedicationDisplay
      rw [h1, h2]
    · show some (extractMedicationDisplay m) = _
      unfold extractMedicationDisplay
      rw [h1, h2]
  · intro m h1 h2
    constructor
    · unfold extractMedicationDisplayReq
      rw [h2, h1]
    · show some (extractMedicationDisplayReq m) = _
      unfold extractMedicationDisplayReq
      rw [h2, h1]
  · intro m h
    constructor
    · unfold extractVaccineDisplay
      rw [h]
    · show some (extractVaccineDisplay m) = _
      unfold extractVaccineDisplay
      rw [h]

/-- C6 counterexample: on a null/empty raw response the allergy response
processor does not return `[]` — it throws a structured error (whose
`type` is `undefined`, since `DataError.EMPTY_RESPONSE` is not a defined
member of the `DataError` enumeration). -/
theorem processAllergyResponse_throws_on_null :
    ∃ e, processAllergyResponse .rnull = .error e ∧ e.type = none ∧
      e.message = some "Empty response received from FHIR server" :=
  ⟨_, rfl, rfl, rfl⟩

/-- C6 (amended): an empty bundle yields `[]` from all four processors,
and so does any entry-less object whose `resourceType` matches no
single-resource branch; a null response yields `[]` from the medication,
immunization and medication-request processors but makes the allergy
processor throw a structured error. -/
theorem response_processors_on_degenerate_inputs :
    processAllergyResponse (.robj { resourceType := some "Bundle" } (some []) none) = .ok [] ∧
    processMedicationResponse (.robj { resourceType := some "Bundle" } (some []) none) = [] ∧
    processImmunizationResponse (.robj { resourceType := some "Bundle" } (some []) none) = [] ∧
    processMedicationRequestResponse (.robj { resourceType := some "Bundle" } (some []) none) = [] ∧
    processMedicationResponse .rnull = [] ∧
    processImmunizationResponse .rnull = [] ∧
    processMedicationRequestResponse .rnull = [] ∧
    (∃ e, processAllergyResponse .rnull = .error e) ∧
    (∀ (r : Res) lk, processAllergyResponse (.robj r none lk) = .ok []) ∧
    (∀ (r : Res) lk, r.resourceType ≠ some "MedicationRequest" →
      processMedicationResponse (.robj r none lk) = []) ∧
    (∀ (r : Res) lk, r.resourceType ≠ some "Immunization" →
      processImmunizationResponse (.robj r none lk) = []) ∧
    (∀ (r : Res) lk, processMedicationRequestResponse (.robj r none lk) = []) := by
  refine ⟨rfl, rfl, rfl, rfl, rfl, rfl, rfl, ⟨_, rfl⟩, ?_, ?_, ?_, fun r lk => rfl⟩
  · intro r lk
    simp only [processAllergyResponse]
    split <;> rfl
  · intro r lk h
    simp [processMedicationResponse, h]
  · intro r lk h
    simp [processImmunizationResponse, h]

/-- Witness for the amended C6: the unrecognized-shape clauses applied to
a concrete object of an unexpected resource type. -/
theorem response_processors_on_degenerate_inputs_witness :
    processAllergyResponse (.robj { resourceType := some "Observation" } none none) = .ok [] ∧
    processMedicationResponse (.robj { resourceType := some "Observation" } none none) = [] ∧
    processImmunizationResponse (.robj { resourceType := some "Observation" } none none) = [] := by
  refine ⟨?_, ?_, ?_⟩
  · exact response_processors_on_degenerate_inputs.2.2.2.2.2.2.2.2.1
      { resourceType := some "Observation" } none
  · exact response_processors_on_degenerate_inputs.2.2.2.2.2.2.2.2.2.1
      { resourceType := some "Observation" } none (by decide)
  · exact response_processors_on_degenerate_inputs.2.2.2.2.2.2.2.2.2.2.1
      { resourceType := some "Observation" } none (by decide)

/-- C7: with a null client, a client lacking `request`, or an empty
patient id, both fetchers reject immediately with the classified
invalid-client / missing-parameter error and `client.request` is never
invoked (`requests = 0`). -/
theorem fetchers_reject_before_request :
    (∀ (pid : String) (k : Nat),
      getAllergyDataAt none pid k = ⟨.error allergyInvalidClientError, 0⟩) ∧
    (∀ (pid : String) (k : Nat),
      getAllergyDataAt (some ⟨none⟩) pid k = ⟨.error allergyInvalidClientError, 0⟩) ∧
    (∀ (req : Nat → Except EVal Response) (k : Nat),
      getAllergyDataAt (some ⟨some req⟩) "" k = ⟨.error allergyMissingParameterError, 0⟩) ∧
    (∀ (pid : String) (k : Nat),
      getMedicationRequestDataAt none pid k = ⟨.error medReqInvalidClientError, 0⟩) ∧
    (∀ (pid : String) (k : Nat),
      getMedicationRequestDataAt (some ⟨none⟩) pid k = ⟨.error medReqInvalidClientError, 0⟩) ∧
    (∀ (req : Nat → Except EVal Response) (k : Nat),
      getMedicationRequestDataAt (some ⟨some req⟩) "" k = ⟨.error medReqMissingParameterError, 0⟩) ∧
    allergyInvalidClientError.type = some FhirServerError.INVALID_CLIENT ∧
    allergyMissingParameterError.type = some FhirServerError.MISSING_PARAMETER ∧
    medReqInvalidClientError.type = some FhirServerError.INVALID_CLIENT ∧
    medReqMissingParameterError.type = some FhirServerError.MISSING_PARAMETER :=
  ⟨fun _ _ => rfl, fun _ _ => rfl, fun _ _ => rfl, fun _ _ => rfl, fun _ _ => rfl,
   fun _ _ => rfl, rfl, rfl, rfl, rfl⟩

/-- First-page resource of the pagination scenario. -/
def pagAllergy1 : Res :=
  { resourceType := some "AllergyIntolerance", id := some "a1",
    patient := some (.robj { reference := some "Patient/1" }) }

/-- Second-page resource of the pagination scenario. -/
def pagAllergy2 : Res :=
  { resourceType := some "AllergyIntolerance", id := some "a2",
    patient := some (.robj { reference := some "Patient/1" }) }

/-- A transport serving a first bundle that carries a `next` link and a
second bundle with a further allergy. -/
def pagRequest : Nat -> Except EVal Response := fun k =>
  if k == 0 then
    .ok (.robj { resourceType := some "Bundle" } (some [{ resource := some pagAllergy1 }])
      (some [{ relation := some "next", url := some "AllergyIntolerance?page=2" }]))
  else
    .ok (.robj { resourceType := some "Bundle" } (some [{ resource := some pagAllergy2 }]) none)

/-- C8: against `pagRequest` — whose first page carries a `next` link and
whose second page holds a further allergy — `getAllergyDataPaginated`
makes a single request and returns only the first page: the
`Array.isArray(response)` early return fires before the link-following
loop (dead code), so the `next` link is never fetched and `pagAllergy2`
never appears. -/
theorem getAllergyDataPaginated_ignores_next_link :
    getAllergyDataPaginated (some (Client.mk (some pagRequest))) "smart-1288992" 10 100 =
      FetchOut.mk (.ok [some pagAllergy1]) 1 :=
  rfl

/-- Helper: pushing the passing elements of a list onto an accumulator is
filtering. -/
theorem foldl_push_eq_filter {α : Type} (p : α → Bool) (xs : List α) :
    ∀ acc, xs.foldl (fun acc a => if p a then acc ++ [a] else acc) acc =
      acc ++ xs.filter p := by
  induction xs with
  | nil => intro acc; simp
  | cons x xs ih =>
    intro acc
    by_cases h : p x
    · simp [List.foldl_cons, h, ih, List.filter_cons, List.append_assoc]
    · simp [List.foldl_cons, h, ih, List.filter_cons]

/-- Helper: `validateAndNormalizeResponse` is the validity filter. -/
theorem validateAndNormalizeResponse_eq_filter (xs : List (Option Res)) :
    validateAndNormalizeResponse xs =
      xs.filter (fun a => (validateAllergyResource a).valid) := by
  cases xs with
  | nil => rfl
  | cons x xs =>
    unfold validateAndNormalizeResponse
    simp only [List.isEmpty_cons, Bool.false_eq_true, if_false]
    exact (foldl_push_eq_filter _ _ []).trans (by simp)

/-- Helper: an allergy resource is `valid` exactly when it is non-null,
its `resourceType` is `"AllergyIntolerance"` and its `patient` is
present. -/
theorem validateAllergyResource_valid_iff (a? : Option Res) :
    (validateAllergyResource a?).valid = true ↔
      ∃ r, a? = some r ∧ r.resourceType = some "AllergyIntolerance" ∧
        r.patient ≠ none := by
  cases a? with
  | none => simp [validateAllergyResource]
  | some r =>
    by_cases hrt : r.resourceType = some "AllergyIntolerance"
    · cases hp : r.patient with
      | none => simp [validateAllergyResource, hrt, hp]
      | some p => simp [validateAllergyResource, hrt, hp]
    · cases hp : r.patient with
      | none => simp [validateAllergyResource, hrt, hp]
      | some p => simp [validateAllergyResource, hrt, hp]

/-- C9: the array `getAllergyData` resolves with is exactly the validity
filter of the processed response — every returned element has passed
`validateAllergyResource`, i.e. is a non-null resource of type
`AllergyIntolerance` with a `patient` present, and failing resources are
dropped rather than escalated. -/
theorem getAllergyData_elements_validated :
    (∀ xs, validateAndNormalizeResponse xs =
      xs.filter (fun a => (validateAllergyResource a).valid)) ∧
    (∀ client pid k l, (getAllergyDataAt client pid k).result = .ok l →
      ∀ a ∈ l, (validateAllergyResource a).valid = true ∧
        ∃ r, a = some r ∧ r.resourceType = some "AllergyIntolerance" ∧
          r.patient ≠ none) := by
  refine ⟨validateAndNormalizeResponse_eq_filter, ?_⟩
  intro client pid k l h a ha
  have hl : ∃ processed, validateAndNormalizeResponse processed = l := by
    rcases client with _ | ⟨_ | req⟩
    · simp [getAllergyDataAt] at h
    · simp [getAllergyDataAt] at h
    · simp only [getAllergyDataAt] at h
      by_cases hp : pid.isEmpty = true
      · rw [if_pos hp] at h
        simp at h
      · rw [if_neg hp] at h
        rcases hreq : req k with e | resp
        · rw [hreq] at h
          simp at h
        · rw [hreq] at h
          dsimp only at h
          rcases hpr : processAllergyResponse resp with e | processed
          · rw [hpr] at h
            simp at h
          · rw [hpr] at h
            simp at h
            exact ⟨processed, h⟩
  obtain ⟨processed, hpl⟩ := hl
  subst hpl
  rw [validateAndNormalizeResponse_eq_filter] at ha
  obtain ⟨-, hvalid⟩ := List.mem_filter.mp ha
  exact ⟨hvalid, (validateAllergyResource_valid_iff a).mp hvalid⟩

/-- An allergy resource missing its required `patient` reference. -/
def c9BadRes : Res := { resourceType := some "AllergyIntolerance" }

/-- A transport answering with a bare array holding one valid resource,
one patient-less resource and one null entry. -/
def c9Request : Nat -> Except EVal Response := fun _ =>
  .ok (.rarr [some pagAllergy1, some c9BadRes, none])

/-- Witness for C9: of the three raw entries served by `c9Request`, only
the valid one is resolved, and it satisfies the validator. -/
theorem getAllergyData_elements_validated_witness :
    (validateAllergyResource (some pagAllergy1)).valid = true ∧
    ∃ r, some pagAllergy1 = some r ∧ r.resourceType = some "AllergyIntolerance" ∧
      r.patient ≠ none :=
  getAllergyData_elements_validated.2 (some ⟨some c9Request⟩) "p1" 0
    [some pagAllergy1] rfl (some pagAllergy1) (by simp)

/-- Helper: length preservation of the indexed normalization map. -/
theorem normalizeAllergyList_length (xs : List (Option Res)) :
    ∀ j, (normalizeAllergyList j xs).length = xs.length := by
  induction xs with
  | nil => intro j; rfl
  | cons x xs ih => intro j; simp [normalizeAllergyList, ih]

/-- Helper: the i-th output of the indexed normalization map is the i-th
input normalized at index `j + i`. -/
theorem normalizeAllergyList_get? (xs : List (Option Res)) :
    ∀ j i, (normalizeAllergyList j xs).get? i =
      (xs.get? i).map (fun a => normalizeAllergyElem a (j + i)) := by
  induction xs with
  | nil => intro j i; simp [normalizeAllergyList]
  | cons x xs ih =>
    intro j i
    cases i with
    | zero => simp [normalizeAllergyList]
    | succ i =>
      simp only [normalizeAllergyList, List.get?_cons_succ, ih (j + 1) i]
      have : j + 1 + i = j + (i + 1) := by omega
      rw [this]

/-- C10: `normalizeAllergyData` is total — non-array arguments yield `[]`,
an array yields one record per element, and each element whose
normalization raises internally (a null element, or a reaction lacking a
substance) yields the placeholder with id `error-<index>`, resource type
`AllergyIntolerance`, and both statuses `"unknown"`. -/
theorem normalizeAllergyData_total_and_placeholders :
    (∀ inp : JsArg, inp.isArr = false → normalizeAllergyData inp = []) ∧
    (∀ xs, (normalizeAllergyData (.jarr xs)).length = xs.length) ∧
    (∀ xs i a?, xs.get? i = some a? → allergyElemRaises a? = true →
      ∃ p, (normalizeAllergyData (.jarr xs)).get? i = some p ∧
        p.id = "error-" ++ toString i ∧ p.resourceType = "AllergyIntolerance" ∧
        p.clinicalStatus = "unknown" ∧ p.verificationStatus = "unknown") := by
  refine ⟨?_, ?_, ?_⟩
  · intro inp h
    cases inp <;> simp_all [normalizeAllergyData, JsArg.isArr]
  · intro xs
    cases xs with
    | nil => rfl
    | cons x xs =>
      simp [normalizeAllergyData, normalizeAllergyList_length]
  · intro xs i a? hget hraise
    cases xs with
    | nil => simp at hget
    | cons x xs =>
      have hne : ((x :: xs).isEmpty) = false := rfl
      simp only [normalizeAllergyData, hne, Bool.false_eq_true, if_false]
      rw [normalizeAllergyList_get? (x :: xs) 0 i, hget]
      simp only [Option.map_some', Nat.zero_add]
      refine ⟨normalizeAllergyElem a? i, rfl, ?_⟩
      cases a? with
      | none => exact ⟨rfl, rfl, rfl, rfl⟩
      | some a =>
        unfold allergyElemRaises at hraise
        dsimp only at hraise
        unfold normalizeAllergyElem
        dsimp only
        rcases hcore : normalizeAllergyElemCore a with m | f
        · exact ⟨rfl, rfl, rfl, rfl⟩
        · rw [hcore] at hraise
          simp at hraise

/-- Witness for C10: a null argument yields `[]`, and a null array element
yields the `error-0` placeholder. -/
theorem normalizeAllergyData_total_and_placeholders_witness :
    normalizeAllergyData .jnull = [] ∧
    ∃ p, (normalizeAllergyData (.jarr [none])).get? 0 = some p ∧
      p.id = "error-" ++ toString 0 ∧ p.resourceType = "AllergyIntolerance" ∧
      p.clinicalStatus = "unknown" ∧ p.verificationStatus = "unknown" :=
  ⟨normalizeAllergyData_total_and_placeholders.1 .jnull rfl,
   normalizeAllergyData_total_and_placeholders.2.2 [none] 0 none rfl rfl⟩

/-- Witness for the amended C5 at concrete resources missing their primary
coding fields. -/
theorem display_fallbacks_on_missing_coding_witness :
    extractMedicationDisplayReq { resourceType := some "MedicationRequest" } = "Unknown Medication" ∧
    extractVaccineDisplay { resourceType := some "Immunization" } = "Unknown vaccine" ∧
    (normalizeAllergyElem (some { resourceType := some "AllergyIntolerance" }) 0).substance =
      { text := "Unknown substance" } := by
  refine ⟨(display_fallbacks_on_missing_coding.2.2.2.1
      { resourceType := some "MedicationRequest" } rfl rfl).1,
    (display_fallbacks_on_missing_coding.2.2.2.2
      { resourceType := some "Immunization" } rfl).1,
    display_fallbacks_on_missing_coding.2.1
      { resourceType := some "AllergyIntolerance" } rfl rfl 0⟩
